import Mathlib

/-
  Verification of the OAuth access-token lifecycle manager of the
  ai-schedular-backend repository.

  The repository contains several variants of the same token-manager
  function getValidAccessToken:

  - Variant A (server.js lines 40-93, identical to the unnamed file
    part_004 lines 38-91): the whole body is wrapped in a single
    try/catch whose catch re-throws every failure as the generic
    message "Failed to refresh access token".  A token is considered
    still valid when Date.now() < token.expiresAt, and the response is
    checked for a truthy access_token field before the record is
    mutated and saved.

  - Variant B (server.js lines 524-558, identical in behaviour to the
    unnamed file part_003 lines 93-130 and to the variants at
    server.js lines 644-678 and 940-973): the missing-record error
    "No tokens found in the database" is thrown outside any try/catch,
    a refresh happens only when Date.now() > token.expiresAt, the
    response is not checked for an access_token field, and only the
    refresh exchange plus save are guarded by a try/catch that
    re-throws "Failed to refresh access token".

  The embedding models:
  - the Mongo collection of Token documents as a list (findOne returns
    the first document; document.save() replaces that document;
    new Token().save() inserts a new document at the end;
    findOneAndUpdate with upsert replaces the first document or
    creates one);
  - the mongoose schema validation of token.models.js (accessToken,
    refreshToken and expiresAt are required; the mongoose required
    check for String paths rejects undefined, null and the empty
    string), which runs on document.save();
  - axios.post as an oracle HttpOutcome: a network error or a non-2xx
    status makes the promise reject (default validateStatus), a 2xx
    response resolves with its JSON body;
  - JavaScript truthiness of the optional string fields of the
    response body (undefined, null and the empty string are falsy);
  - time as a single integer parameter now standing for Date.now()
    (the source calls Date.now() more than once per invocation; the
    difference between those calls is irrelevant to every claim).

  Timestamps are epoch milliseconds as integers.
-/

namespace AiScheduler

/-- The TOKEN_URL constant of server.js (line 31). -/
def TOKEN_URL : String := "https://api.hubapi.com/oauth/v1/token"

/-- A persisted Token document, following the schema of
token.models.js: accessToken and refreshToken are strings, expiresAt
is a number (epoch milliseconds). -/
structure TokenRecord where
  accessToken : String
  refreshToken : String
  expiresAt : Int
  deriving DecidableEq, Repr

/-- The JSON body of a token-endpoint response.  access_token and
refresh_token are optional strings: none stands for an absent or null
field, some "" for an empty string (all three are falsy in
JavaScript). expires_in is the declared lifetime in seconds. -/
structure RefreshBody where
  access_token : Option String
  refresh_token : Option String
  expires_in : Int
  deriving DecidableEq, Repr

/-- Outcome of the HTTP POST to the token endpoint, as an oracle. -/
inductive HttpOutcome where
  | netError : HttpOutcome
  | response : Nat → RefreshBody → HttpOutcome
  deriving DecidableEq, Repr

/-- The form-encoded body the refresh exchange sends to the token
endpoint (server.js lines 63-72). -/
structure RefreshRequest where
  url : String
  grant_type : String
  client_id : String
  client_secret : String
  refresh_token : String
  deriving DecidableEq, Repr

def mkRefreshRequest (cid csec rt : String) : RefreshRequest :=
  ⟨TOKEN_URL, "refresh_token", cid, csec, rt⟩

/-- A mutated in-memory mongoose document before save(): accessToken
may have been assigned undefined (the source assigns
response.data.access_token without checking it in variant B). -/
structure PendingDoc where
  accessToken : Option String
  refreshToken : String
  expiresAt : Int
  deriving DecidableEq, Repr

/-- Result of one call: the value returned or the message of the
thrown error, the collection after the call, and the list of refresh
requests sent to the token endpoint during the call. -/
inductive CallResult where
  | ok : String → CallResult
  | err : String → CallResult
  deriving DecidableEq, Repr

structure TMResult where
  result : CallResult
  store : List TokenRecord
  requests : List RefreshRequest
  deriving DecidableEq, Repr

/-- axios default validateStatus: resolve only for 2xx statuses. -/
def is2xx (s : Nat) : Bool := decide (200 ≤ s) && decide (s < 300)

/-- JavaScript truthiness of an optional string: undefined, null and
the empty string are falsy, every other string is truthy. -/
def jsTruthy : Option String → Bool
  | none => false
  | some s => !(s == "")

/-- axios.post as seen by the caller: none when the promise rejects
(network error or non-2xx status), some body on a 2xx response. -/
def axiosPost : HttpOutcome → Option RefreshBody
  | .netError => none
  | .response status body => if is2xx status then some body else none

/-- Mongoose validation of the Token schema on save: all three paths
are required, and the required check of a String path rejects the
empty string as well as undefined and null. -/
def validateDoc : PendingDoc → Option TokenRecord
  | ⟨none, _, _⟩ => none
  | ⟨some a, r, e⟩ => if a = "" ∨ r = "" then none else some ⟨a, r, e⟩

/-- The refreshToken kept after a refresh response (server.js line
81): response.data.refresh_token when that value is truthy, the
stored refreshToken otherwise (the JavaScript or-operator). -/
def keptRefreshToken (token : TokenRecord) (b : RefreshBody) : String :=
  if jsTruthy b.refresh_token then b.refresh_token.getD "" else token.refreshToken

/-- The three mutations of the found document after a refresh response
(server.js lines 80-82): accessToken becomes response.data.access_token,
refreshToken becomes response.data.refresh_token with the old value
kept when the new one is falsy, expiresAt becomes
Date.now() + response.data.expires_in * 1000. -/
def refreshedPending (now : Int) (token : TokenRecord) (b : RefreshBody) : PendingDoc :=
  ⟨b.access_token, keptRefreshToken token b, now + b.expires_in * 1000⟩

/-- The access_token field carried by the HTTP outcome, used to state
that a returned token comes from the response body. -/
def httpAccessToken : HttpOutcome → Option String
  | .netError => none
  | .response _ b => b.access_token

/-- Variant A of getValidAccessToken (server.js lines 40-93, part_004
lines 38-91).  The whole body sits in one try/catch, so the
missing-record throw and the missing-access-token throw are both
re-thrown by the catch as "Failed to refresh access token".  The token
is still valid when now < expiresAt.  The response is checked for a
truthy access_token before the document is mutated and saved. -/
def getValidAccessTokenA (cid csec : String) (now : Int)
    (store : List TokenRecord) (http : HttpOutcome) : TMResult :=
  match store with
  | [] => ⟨.err "Failed to refresh access token", [], []⟩
  | token :: rest =>
    if now < token.expiresAt then
      ⟨.ok token.accessToken, token :: rest, []⟩
    else
      let req := mkRefreshRequest cid csec token.refreshToken
      match axiosPost http with
      | none => ⟨.err "Failed to refresh access token", token :: rest, [req]⟩
      | some body =>
        if jsTruthy body.access_token then
          match validateDoc (refreshedPending now token body) with
          | some newTok => ⟨.ok newTok.accessToken, newTok :: rest, [req]⟩
          | none => ⟨.err "Failed to refresh access token", token :: rest, [req]⟩
        else
          ⟨.err "Failed to refresh access token", token :: rest, [req]⟩

/-- Variant B of getValidAccessToken (server.js lines 524-558,
part_003 lines 93-130, and the equivalent variants at server.js lines
644-678 and 940-973).  The missing-record error is thrown outside any
try/catch with its own message.  A refresh happens only when
now > expiresAt.  The response is not checked for an access_token
field: the document is mutated with whatever the body holds and
save() is attempted; a validation failure of save() is caught by the
inner try/catch and re-thrown as the refresh-failure error. -/
def getValidAccessTokenB (cid csec : String) (now : Int)
    (store : List TokenRecord) (http : HttpOutcome) : TMResult :=
  match store with
  | [] => ⟨.err "No tokens found in the database", [], []⟩
  | token :: rest =>
    if now > token.expiresAt then
      let req := mkRefreshRequest cid csec token.refreshToken
      match axiosPost http with
      | none => ⟨.err "Failed to refresh access token", token :: rest, [req]⟩
      | some body =>
        match validateDoc (refreshedPending now token body) with
        | some newTok => ⟨.ok newTok.accessToken, newTok :: rest, [req]⟩
        | none => ⟨.err "Failed to refresh access token", token :: rest, [req]⟩
    else
      ⟨.ok token.accessToken, token :: rest, []⟩

/-- The persistence step of the /auth/callback handler at server.js
lines 507-516 (and part_003 lines 76-85): new Token(data) followed by
save() inserts a fresh document into the collection; mongoose
validates the new document. -/
def authCallbackSaveNew (store : List TokenRecord)
    (access_token refresh_token : String) (now expires_in : Int) :
    Option (List TokenRecord) :=
  match validateDoc ⟨some access_token, refresh_token, now + expires_in * 1000⟩ with
  | some r => some (store ++ [r])
  | none => none

/-- The persistence step of the /auth/callback handler at server.js
lines 793-802: Token.findOneAndUpdate with an empty filter and
upsert true replaces the first document of the collection, or creates
one when the collection is empty. -/
def authCallbackUpsert (store : List TokenRecord)
    (access_token refresh_token : String) (now expires_in : Int) :
    List TokenRecord :=
  match store with
  | [] => [⟨access_token, refresh_token, now + expires_in * 1000⟩]
  | _ :: rest => ⟨access_token, refresh_token, now + expires_in * 1000⟩ :: rest

/-- Helper: once the expiry check of variant A fails, exactly one
refresh request is sent, whatever the token endpoint answers. -/
theorem tokenA_expired_requests
    (cid csec : String) (now : Int) (t : TokenRecord)
    (rest : List TokenRecord) (http : HttpOutcome)
    (hexp : ¬ now < t.expiresAt) :
    (getValidAccessTokenA cid csec now (t :: rest) http).requests
      = [mkRefreshRequest cid csec t.refreshToken] := by
  simp only [getValidAccessTokenA, if_neg hexp]
  split
  · rfl
  · split
    · split <;> rfl
    · rfl

/-- Helper: once the expiry check of variant B passes, exactly one
refresh request is sent, whatever the token endpoint answers. -/
theorem tokenB_expired_requests
    (cid csec : String) (now : Int) (t : TokenRecord)
    (rest : List TokenRecord) (http : HttpOutcome)
    (hexp : now > t.expiresAt) :
    (getValidAccessTokenB cid csec now (t :: rest) http).requests
      = [mkRefreshRequest cid csec t.refreshToken] := by
  simp only [getValidAccessTokenB, if_pos hexp]
  split
  · rfl
  · split <;> rfl

/-- Helper: reduction of variant A on an expired token and a 2xx
response. -/
theorem tokenA_refresh_2xx
    (cid csec : String) (now : Int) (t : TokenRecord)
    (rest : List TokenRecord) (s : Nat) (b : RefreshBody)
    (hexp : ¬ now < t.expiresAt) (hs : is2xx s = true) :
    getValidAccessTokenA cid csec now (t :: rest) (.response s b) =
      if jsTruthy b.access_token then
        match validateDoc (refreshedPending now t b) with
        | some newTok =>
            ⟨.ok newTok.accessToken, newTok :: rest,
             [mkRefreshRequest cid csec t.refreshToken]⟩
        | none =>
            ⟨.err "Failed to refresh access token", t :: rest,
             [mkRefreshRequest cid csec t.refreshToken]⟩
      else
        ⟨.err "Failed to refresh access token", t :: rest,
         [mkRefreshRequest cid csec t.refreshToken]⟩ := by
  simp [getValidAccessTokenA, axiosPost, hexp, hs]

/-- Helper: reduction of variant B on an expired token and a 2xx
response. -/
theorem tokenB_refresh_2xx
    (cid csec : String) (now : Int) (t : TokenRecord)
    (rest : List TokenRecord) (s : Nat) (b : RefreshBody)
    (hexp : now > t.expiresAt) (hs : is2xx s = true) :
    getValidAccessTokenB cid csec now (t :: rest) (.response s b) =
      match validateDoc (refreshedPending now t b) with
      | some newTok =>
          ⟨.ok newTok.accessToken, newTok :: rest,
           [mkRefreshRequest cid csec t.refreshToken]⟩
      | none =>
          ⟨.err "Failed to refresh access token", t :: rest,
           [mkRefreshRequest cid csec t.refreshToken]⟩ := by
  simp [getValidAccessTokenB, axiosPost, hexp, hs]

/-- Helper: when validateDoc accepts the mutated document, the body
carried a non-empty access_token, the kept refreshToken is non-empty,
and the validated record is exactly the mutated one. -/
theorem validateDoc_refreshedPending
    (now : Int) (t : TokenRecord) (b : RefreshBody) (newTok : TokenRecord)
    (h : validateDoc (refreshedPending now t b) = some newTok) :
    b.access_token = some newTok.accessToken ∧ newTok.accessToken ≠ "" ∧
    keptRefreshToken t b ≠ "" ∧
    newTok = ⟨newTok.accessToken, keptRefreshToken t b, now + b.expires_in * 1000⟩ := by
  rcases hb : b.access_token with _ | str
  · simp [validateDoc, refreshedPending, hb] at h
  · simp only [refreshedPending, hb, validateDoc] at h
    split at h
    · cases h
    · next hcond =>
      push_neg at hcond
      cases h
      exact ⟨rfl, hcond.1, hcond.2, rfl⟩

/-- Helper: every successful call of variant A on an expired token
came from a 2xx response whose body carried the returned access token,
and persisted the fully mutated record. -/
theorem tokenA_ok_shape
    (cid csec : String) (now : Int) (t : TokenRecord)
    (rest : List TokenRecord) (http : HttpOutcome) (a : String)
    (hexp : ¬ now < t.expiresAt)
    (hok : (getValidAccessTokenA cid csec now (t :: rest) http).result = .ok a) :
    ∃ s b, http = .response s b ∧ is2xx s = true ∧
      b.access_token = some a ∧ a ≠ "" ∧ keptRefreshToken t b ≠ "" ∧
      (getValidAccessTokenA cid csec now (t :: rest) http).store
        = ⟨a, keptRefreshToken t b, now + b.expires_in * 1000⟩ :: rest := by
  rcases http with _ | ⟨s, b⟩
  · exact absurd hok (by simp [getValidAccessTokenA, axiosPost, hexp])
  · by_cases hs : is2xx s
    · rw [tokenA_refresh_2xx cid csec now t rest s b hexp hs] at hok ⊢
      split at hok
      · next hcond1 =>
        split at hok
        · next newTok hval =>
          obtain ⟨hacc, hane, hkne, hshape⟩ :=
            validateDoc_refreshedPending now t b newTok hval
          have ha : newTok.accessToken = a := CallResult.ok.inj hok
          subst ha
          refine ⟨s, b, rfl, hs, hacc, hane, hkne, ?_⟩
          rw [if_pos hcond1]
          show newTok :: rest = _
          rw [← hshape]
        · cases hok
      · cases hok
    · exact absurd hok (by simp [getValidAccessTokenA, axiosPost, hexp, hs])

/-- Helper: every successful call of variant B on an expired token
came from a 2xx response whose body carried the returned access token,
and persisted the fully mutated record. -/
theorem tokenB_ok_shape
    (cid csec : String) (now : Int) (t : TokenRecord)
    (rest : List TokenRecord) (http : HttpOutcome) (a : String)
    (hexp : now > t.expiresAt)
    (hok : (getValidAccessTokenB cid csec now (t :: rest) http).result = .ok a) :
    ∃ s b, http = .response s b ∧ is2xx s = true ∧
      b.access_token = some a ∧ a ≠ "" ∧ keptRefreshToken t b ≠ "" ∧
      (getValidAccessTokenB cid csec now (t :: rest) http).store
        = ⟨a, keptRefreshToken t b, now + b.expires_in * 1000⟩ :: rest := by
  rcases http with _ | ⟨s, b⟩
  · exact absurd hok (by simp [getValidAccessTokenB, axiosPost, hexp])
  · by_cases hs : is2xx s
    · rw [tokenB_refresh_2xx cid csec now t rest s b hexp hs] at hok ⊢
      split at hok
      · next newTok hval =>
        obtain ⟨hacc, hane, hkne, hshape⟩ :=
          validateDoc_refreshedPending now t b newTok hval
        have ha : newTok.accessToken = a := CallResult.ok.inj hok
        subst ha
        refine ⟨s, b, rfl, hs, hacc, hane, hkne, ?_⟩
        show newTok :: rest = _
        rw [← hshape]
      · cases hok
    · exact absurd hok (by simp [getValidAccessTokenB, axiosPost, hexp, hs])

/-- C9: in the variants of getValidAccessToken whose whole body sits
in a single try/catch (server.js lines 40-93 and part_004 lines
38-91), every failure is re-thrown as "Failed to refresh access
token", so no caller can distinguish the missing-record condition
from a failed refresh by the error produced. -/
theorem c9_trycatch_single_error_message
    (cid csec : String) (now : Int) (store : List TokenRecord)
    (http : HttpOutcome) (e : String)
    (herr : (getValidAccessTokenA cid csec now store http).result = .err e) :
    e = "Failed to refresh access token" := by
  rcases store with _ | ⟨token, rest⟩ <;>
    simp only [getValidAccessTokenA] at herr
  · exact (CallResult.err.inj herr).symm
  · split at herr
    · simp at herr
    · split at herr
      · exact (CallResult.err.inj herr).symm
      · split at herr
        · split at herr
          · simp at herr
          · exact (CallResult.err.inj herr).symm
        · exact (CallResult.err.inj herr).symm

theorem c9_trycatch_single_error_message_witness :
    "Failed to refresh access token" = "Failed to refresh access token" :=
  c9_trycatch_single_error_message "cid" "sec" 1 [⟨"A1", "R1", 0⟩]
    .netError "Failed to refresh access token" (by decide)

/-- C2 counterexample: calling the try/catch variant of
getValidAccessToken (server.js lines 40-93) on an empty store fails
with the generic message "Failed to refresh access token", not with
the distinct NotAuthorized message "No tokens found in the database"
that the claim requires the call to fail with. -/
theorem c2_counterexample :
    (getValidAccessTokenA "cid" "sec" 0 [] .netError).result
      = .err "Failed to refresh access token" ∧
    CallResult.err "Failed to refresh access token"
      ≠ CallResult.err "No tokens found in the database" :=
  ⟨rfl, by decide⟩

/-- C2 amended: when no token record exists, no variant performs a
network request; the variants without an outer try/catch (server.js
lines 524-558, part_003 lines 93-130) fail with the distinct message
"No tokens found in the database", while the try/catch variant
(server.js lines 40-93) re-throws the generic refresh-failure
message. -/
theorem c2_no_record_fails_without_network
    (cid csec : String) (now : Int) (http : HttpOutcome) :
    (getValidAccessTokenB cid csec now [] http).result
      = .err "No tokens found in the database" ∧
    (getValidAccessTokenB cid csec now [] http).requests = [] ∧
    (getValidAccessTokenA cid csec now [] http).result
      = .err "Failed to refresh access token" ∧
    (getValidAccessTokenA cid csec now [] http).requests = [] ∧
    "No tokens found in the database" ≠ "Failed to refresh access token" :=
  ⟨rfl, rfl, rfl, rfl, by decide⟩

/-- C3 counterexample: the /auth/callback handler at server.js lines
507-516 persists via new Token followed by save, which inserts a
second document: starting from a store that already holds one record,
a successful authorization-code exchange leaves two records in the
collection. -/
theorem c3_counterexample :
    authCallbackSaveNew [⟨"A1", "R1", 1000⟩] "A2" "R2" 0 3600
      = some [⟨"A1", "R1", 1000⟩, ⟨"A2", "R2", 3600000⟩] ∧
    ([⟨"A1", "R1", 1000⟩, ⟨"A2", "R2", 3600000⟩] : List TokenRecord).length ≠ 1 := by
  exact ⟨by decide, by decide⟩

/-- C3 amended: the refresh path of getValidAccessToken and the
findOneAndUpdate-based /auth/callback (server.js lines 793-802)
replace the single stored record (the collection size is preserved,
and the upsert creates the record when absent), but the save-based
/auth/callback (server.js lines 507-516) appends a new document, so
that persistence path does not maintain the one-record invariant. -/
theorem c3_upsert_vs_append
    (store l : List TokenRecord) (a r : String) (now ei : Int)
    (cid csec : String) (http : HttpOutcome)
    (hsave : authCallbackSaveNew store a r now ei = some l) :
    (authCallbackUpsert store a r now ei).length = max 1 store.length ∧
    (getValidAccessTokenA cid csec now store http).store.length = store.length ∧
    (getValidAccessTokenB cid csec now store http).store.length = store.length ∧
    l.length = store.length + 1 := by
  refine ⟨?_, ?_, ?_, ?_⟩
  · cases store <;> simp [authCallbackUpsert]
  · rcases store with _ | ⟨token, rest⟩
    · rfl
    · simp only [getValidAccessTokenA]
      split
      · rfl
      · split
        · rfl
        · split
          · split <;> rfl
          · rfl
  · rcases store with _ | ⟨token, rest⟩
    · rfl
    · simp only [getValidAccessTokenB]
      split
      · split
        · rfl
        · split <;> rfl
      · rfl
  · unfold authCallbackSaveNew at hsave
    split at hsave
    · cases hsave
      simp
    · cases hsave

theorem c3_upsert_vs_append_witness :
    (authCallbackUpsert [⟨"A1", "R1", 1000⟩] "A2" "R2" 0 3600).length
      = max 1 ([⟨"A1", "R1", 1000⟩] : List TokenRecord).length ∧
    (getValidAccessTokenA "cid" "sec" 0 [⟨"A1", "R1", 1000⟩] .netError).store.length
      = ([⟨"A1", "R1", 1000⟩] : List TokenRecord).length ∧
    (getValidAccessTokenB "cid" "sec" 0 [⟨"A1", "R1", 1000⟩] .netError).store.length
      = ([⟨"A1", "R1", 1000⟩] : List TokenRecord).length ∧
    ([⟨"A1", "R1", 1000⟩, ⟨"A2", "R2", 3600000⟩] : List TokenRecord).length
      = ([⟨"A1", "R1", 1000⟩] : List TokenRecord).length + 1 :=
  c3_upsert_vs_append [⟨"A1", "R1", 1000⟩]
    [⟨"A1", "R1", 1000⟩, ⟨"A2", "R2", 3600000⟩]
    "A2" "R2" 0 3600 "cid" "sec" .netError (by decide)

/-- C4: when the stored expiresAt is more than the 60-second safety
margin in the future of now, both variants of getValidAccessToken
return exactly the stored accessToken, send no request to the token
endpoint, and leave the store unchanged. -/
theorem c4_fresh_token_returned_unchanged
    (cid csec : String) (now : Int) (t : TokenRecord)
    (rest : List TokenRecord) (http : HttpOutcome)
    (hfresh : now + 60000 < t.expiresAt) :
    getValidAccessTokenA cid csec now (t :: rest) http
      = ⟨.ok t.accessToken, t :: rest, []⟩ ∧
    getValidAccessTokenB cid csec now (t :: rest) http
      = ⟨.ok t.accessToken, t :: rest, []⟩ := by
  have h1 : now < t.expiresAt := by omega
  have h2 : ¬ now > t.expiresAt := by omega
  exact ⟨by simp [getValidAccessTokenA, h1], by simp [getValidAccessTokenB, h2]⟩

theorem c4_fresh_token_returned_unchanged_witness :
    getValidAccessTokenA "cid" "sec" 0 [⟨"A1", "R1", 600000⟩] .netError
      = ⟨.ok "A1", [⟨"A1", "R1", 600000⟩], []⟩ ∧
    getValidAccessTokenB "cid" "sec" 0 [⟨"A1", "R1", 600000⟩] .netError
      = ⟨.ok "A1", [⟨"A1", "R1", 600000⟩], []⟩ :=
  c4_fresh_token_returned_unchanged "cid" "sec" 0 ⟨"A1", "R1", 600000⟩ []
    .netError (by decide)

/-- C7 counterexample: with the stored expiresAt 30000 ms in the
future (positive but below the 60000 ms safety margin), both variants
return the cached accessToken and send no refresh request, while the
claim requires the refresh exchange to be performed. -/
theorem c7_counterexample :
    (0 : Int) < 60000 - 30000 ∧ (60000 - 30000 : Int) < 60000 ∧
    getValidAccessTokenA "cid" "sec" 30000 [⟨"A1", "R1", 60000⟩] .netError
      = ⟨.ok "A1", [⟨"A1", "R1", 60000⟩], []⟩ ∧
    getValidAccessTokenB "cid" "sec" 30000 [⟨"A1", "R1", 60000⟩] .netError
      = ⟨.ok "A1", [⟨"A1", "R1", 60000⟩], []⟩ := by
  decide

/-- C7 amended: no 60-second safety margin exists in the code.  The
variant at server.js line 55 refreshes only when now has reached
expiresAt and the one at server.js line 648 only when now exceeds it:
whenever expiresAt is strictly in the future, even by less than 60
seconds, the cached accessToken is returned and no refresh exchange
happens. -/
theorem c7_no_safety_margin
    (cid csec : String) (now : Int) (t : TokenRecord)
    (rest : List TokenRecord) (http : HttpOutcome)
    (hpos : 0 < t.expiresAt - now) :
    getValidAccessTokenA cid csec now (t :: rest) http
      = ⟨.ok t.accessToken, t :: rest, []⟩ ∧
    getValidAccessTokenB cid csec now (t :: rest) http
      = ⟨.ok t.accessToken, t :: rest, []⟩ := by
  have h1 : now < t.expiresAt := by omega
  have h2 : ¬ now > t.expiresAt := by omega
  exact ⟨by simp [getValidAccessTokenA, h1], by simp [getValidAccessTokenB, h2]⟩

theorem c7_no_safety_margin_witness :
    getValidAccessTokenA "cid" "sec" 59000 [⟨"A1", "R1", 60000⟩] .netError
      = ⟨.ok "A1", [⟨"A1", "R1", 60000⟩], []⟩ ∧
    getValidAccessTokenB "cid" "sec" 59000 [⟨"A1", "R1", 60000⟩] .netError
      = ⟨.ok "A1", [⟨"A1", "R1", 60000⟩], []⟩ :=
  c7_no_safety_margin "cid" "sec" 59000 ⟨"A1", "R1", 60000⟩ []
    .netError (by decide)

/-- C1: when the stored token is expired and the refresh exchange
fails (network error, non-2xx status, or a response body missing the
access_token field), both variants of getValidAccessToken fail with
the refresh-failure error "Failed to refresh access token" and the
persisted record (accessToken, refreshToken, expiresAt) is unchanged:
no partial write is committed. -/
theorem c1_failed_refresh_no_partial_write
    (cid csec : String) (now : Int) (t : TokenRecord)
    (rest : List TokenRecord) (http : HttpOutcome)
    (hexp : t.expiresAt < now)
    (hfail : http = .netError
      ∨ (∃ s b, http = .response s b ∧ is2xx s = false)
      ∨ (∃ s b, http = .response s b ∧ b.access_token = none)) :
    (getValidAccessTokenA cid csec now (t :: rest) http).result
      = .err "Failed to refresh access token" ∧
    (getValidAccessTokenA cid csec now (t :: rest) http).store = t :: rest ∧
    (getValidAccessTokenB cid csec now (t :: rest) http).result
      = .err "Failed to refresh access token" ∧
    (getValidAccessTokenB cid csec now (t :: rest) http).store = t :: rest := by
  have h1 : ¬ now < t.expiresAt := by omega
  have h2 : now > t.expiresAt := hexp
  rcases hfail with rfl | ⟨s, b, rfl, hs⟩ | ⟨s, b, rfl, hb⟩
  · simp [getValidAccessTokenA, getValidAccessTokenB, axiosPost, h1, h2]
  · simp [getValidAccessTokenA, getValidAccessTokenB, axiosPost, h1, h2, hs]
  · by_cases hs2 : is2xx s
    · simp [getValidAccessTokenA, getValidAccessTokenB, axiosPost, h1, h2, hs2,
        jsTruthy, hb, validateDoc, refreshedPending]
    · simp [getValidAccessTokenA, getValidAccessTokenB, axiosPost, h1, h2, hs2]

theorem c1_failed_refresh_no_partial_write_witness :
    (getValidAccessTokenA "cid" "sec" 1 [⟨"A1", "R1", 0⟩] .netError).result
      = .err "Failed to refresh access token" ∧
    (getValidAccessTokenA "cid" "sec" 1 [⟨"A1", "R1", 0⟩] .netError).store
      = [⟨"A1", "R1", 0⟩] ∧
    (getValidAccessTokenB "cid" "sec" 1 [⟨"A1", "R1", 0⟩] .netError).result
      = .err "Failed to refresh access token" ∧
    (getValidAccessTokenB "cid" "sec" 1 [⟨"A1", "R1", 0⟩] .netError).store
      = [⟨"A1", "R1", 0⟩] :=
  c1_failed_refresh_no_partial_write "cid" "sec" 1 ⟨"A1", "R1", 0⟩ [] .netError
    (by decide) (Or.inl rfl)

/-- C5: with a stored record whose expiresAt is in the past, both
variants of getValidAccessToken send exactly one refresh request, a
POST to TOKEN_URL carrying grant_type refresh_token, the stored
refreshToken, client_id and client_secret; and whenever the call
returns a token, that token is the access_token value of the
response body. -/
theorem c5_expired_triggers_one_refresh
    (cid csec : String) (now : Int) (t : TokenRecord)
    (rest : List TokenRecord) (http : HttpOutcome)
    (hexp : t.expiresAt < now) :
    (getValidAccessTokenA cid csec now (t :: rest) http).requests
      = [⟨TOKEN_URL, "refresh_token", cid, csec, t.refreshToken⟩] ∧
    (getValidAccessTokenB cid csec now (t :: rest) http).requests
      = [⟨TOKEN_URL, "refresh_token", cid, csec, t.refreshToken⟩] ∧
    (∀ a, (getValidAccessTokenA cid csec now (t :: rest) http).result = .ok a →
      httpAccessToken http = some a) ∧
    (∀ a, (getValidAccessTokenB cid csec now (t :: rest) http).result = .ok a →
      httpAccessToken http = some a) := by
  have h1 : ¬ now < t.expiresAt := by omega
  have h2 : now > t.expiresAt := hexp
  refine ⟨tokenA_expired_requests cid csec now t rest http h1,
          tokenB_expired_requests cid csec now t rest http h2, ?_, ?_⟩
  · intro a hok
    obtain ⟨s, b, heq, _, hacc, _⟩ := tokenA_ok_shape cid csec now t rest http a h1 hok
    rw [heq]
    exact hacc
  · intro a hok
    obtain ⟨s, b, heq, _, hacc, _⟩ := tokenB_ok_shape cid csec now t rest http a h2 hok
    rw [heq]
    exact hacc

theorem c5_expired_triggers_one_refresh_witness :
    (getValidAccessTokenA "cid" "sec" 1000 [⟨"A1", "R1", 0⟩]
        (.response 200 ⟨some "A2", some "R2", 3600⟩)).requests
      = [⟨TOKEN_URL, "refresh_token", "cid", "sec", "R1"⟩] ∧
    (getValidAccessTokenB "cid" "sec" 1000 [⟨"A1", "R1", 0⟩]
        (.response 200 ⟨some "A2", some "R2", 3600⟩)).requests
      = [⟨TOKEN_URL, "refresh_token", "cid", "sec", "R1"⟩] ∧
    httpAccessToken (.response 200 ⟨some "A2", some "R2", 3600⟩) = some "A2" := by
  have h := c5_expired_triggers_one_refresh "cid" "sec" 1000 ⟨"A1", "R1", 0⟩ []
    (.response 200 ⟨some "A2", some "R2", 3600⟩) (by decide)
  exact ⟨h.1, h.2.1, h.2.2.1 "A2" (by decide)⟩

/-- C6: when the token-endpoint response omits the refresh_token
field, any successful call of either variant leaves the refreshToken
of the persisted record equal to its pre-call value: the old refresh
token is never discarded (server.js line 81). -/
theorem c6_omitted_refresh_token_retained
    (cid csec : String) (now : Int) (t : TokenRecord)
    (rest : List TokenRecord) (http : HttpOutcome)
    (homit : ∀ s b, http = .response s b → b.refresh_token = none) :
    (∀ a, (getValidAccessTokenA cid csec now (t :: rest) http).result = .ok a →
      ((getValidAccessTokenA cid csec now (t :: rest) http).store.head?).map
          TokenRecord.refreshToken = some t.refreshToken) ∧
    (∀ a, (getValidAccessTokenB cid csec now (t :: rest) http).result = .ok a →
      ((getValidAccessTokenB cid csec now (t :: rest) http).store.head?).map
          TokenRecord.refreshToken = some t.refreshToken) := by
  constructor
  · intro a hok
    by_cases hv : now < t.expiresAt
    · simp [getValidAccessTokenA, hv]
    · obtain ⟨s, b, heq, _, _, _, _, hstore⟩ :=
        tokenA_ok_shape cid csec now t rest http a hv hok
      rw [hstore]
      have hb := homit s b heq
      simp [keptRefreshToken, jsTruthy, hb]
  · intro a hok
    by_cases hv : now > t.expiresAt
    · obtain ⟨s, b, heq, _, _, _, _, hstore⟩ :=
        tokenB_ok_shape cid csec now t rest http a hv hok
      rw [hstore]
      have hb := homit s b heq
      simp [keptRefreshToken, jsTruthy, hb]
    · simp [getValidAccessTokenB, hv]

theorem c6_omitted_refresh_token_retained_witness :
    ((getValidAccessTokenA "cid" "sec" 1000 [⟨"A1", "R1", 0⟩]
        (.response 200 ⟨some "A2", none, 3600⟩)).store.head?).map
      TokenRecord.refreshToken = some "R1" ∧
    ((getValidAccessTokenB "cid" "sec" 1000 [⟨"A1", "R1", 0⟩]
        (.response 200 ⟨some "A2", none, 3600⟩)).store.head?).map
      TokenRecord.refreshToken = some "R1" := by
  have h := c6_omitted_refresh_token_retained "cid" "sec" 1000 ⟨"A1", "R1", 0⟩ []
    (.response 200 ⟨some "A2", none, 3600⟩)
    (by intro s b heq; cases heq; rfl)
  exact ⟨h.1 "A2" (by decide), h.2 "A2" (by decide)⟩

/-- C8 counterexample: a successful refresh whose response carries
refresh_token present but equal to the empty string keeps the prior
refreshToken "R1" instead of storing the response value, so the
persisted refreshToken does not equal the refresh_token of the
response even though that field is not absent. -/
theorem c8_counterexample :
    (getValidAccessTokenA "cid" "sec" 1000 [⟨"A1", "R1", 0⟩]
        (.response 200 ⟨some "A2", some "", 3600⟩)).result = .ok "A2" ∧
    (getValidAccessTokenA "cid" "sec" 1000 [⟨"A1", "R1", 0⟩]
        (.response 200 ⟨some "A2", some "", 3600⟩)).store
      = [⟨"A2", "R1", 3601000⟩] ∧
    ("R1" : String) ≠ "" := by
  decide

/-- C8 amended: on every successful refresh the persisted record has
accessToken equal to the access_token of the response, refreshToken
equal to the refresh_token of the response when that value is a
non-empty string and the prior value otherwise (JavaScript or, line
81), and expiresAt equal to now plus expires_in times 1000; success
implies this fully-formed record is in the store when the token is
returned, in both variants. -/
theorem c8_successful_refresh_persists_record
    (cid csec : String) (now : Int) (t : TokenRecord)
    (rest : List TokenRecord) (s : Nat) (b : RefreshBody) (a : String)
    (hexp : t.expiresAt < now)
    (hok : (getValidAccessTokenA cid csec now (t :: rest)
        (.response s b)).result = .ok a) :
    b.access_token = some a ∧
    (getValidAccessTokenA cid csec now (t :: rest) (.response s b)).store
      = ⟨a, keptRefreshToken t b, now + b.expires_in * 1000⟩ :: rest ∧
    (getValidAccessTokenB cid csec now (t :: rest) (.response s b)).result
      = .ok a ∧
    (getValidAccessTokenB cid csec now (t :: rest) (.response s b)).store
      = ⟨a, keptRefreshToken t b, now + b.expires_in * 1000⟩ :: rest := by
  have h1 : ¬ now < t.expiresAt := by omega
  have h2 : now > t.expiresAt := hexp
  obtain ⟨s2, b2, heq, hs, hacc, hane, hkne, hstore⟩ :=
    tokenA_ok_shape cid csec now t rest (.response s b) a h1 hok
  injection heq with hseq hbeq
  subst hseq
  subst hbeq
  have hval : validateDoc (refreshedPending now t b)
      = some ⟨a, keptRefreshToken t b, now + b.expires_in * 1000⟩ := by
    simp [validateDoc, refreshedPending, hacc, hane, hkne]
  refine ⟨hacc, hstore, ?_, ?_⟩
  · rw [tokenB_refresh_2xx cid csec now t rest s b h2 hs, hval]
  · rw [tokenB_refresh_2xx cid csec now t rest s b h2 hs, hval]

theorem c8_successful_refresh_persists_record_witness :
    (⟨some "A2", some "R2", 3600⟩ : RefreshBody).access_token = some "A2" ∧
    (getValidAccessTokenA "cid" "sec" 1000 [⟨"A1", "R1", 0⟩]
        (.response 200 ⟨some "A2", some "R2", 3600⟩)).store
      = [⟨"A2", keptRefreshToken ⟨"A1", "R1", 0⟩ ⟨some "A2", some "R2", 3600⟩,
          1000 + 3600 * 1000⟩] ∧
    (getValidAccessTokenB "cid" "sec" 1000 [⟨"A1", "R1", 0⟩]
        (.response 200 ⟨some "A2", some "R2", 3600⟩)).result = .ok "A2" ∧
    (getValidAccessTokenB "cid" "sec" 1000 [⟨"A1", "R1", 0⟩]
        (.response 200 ⟨some "A2", some "R2", 3600⟩)).store
      = [⟨"A2", keptRefreshToken ⟨"A1", "R1", 0⟩ ⟨some "A2", some "R2", 3600⟩,
          1000 + 3600 * 1000⟩] :=
  c8_successful_refresh_persists_record "cid" "sec" 1000 ⟨"A1", "R1", 0⟩ [] 200
    ⟨some "A2", some "R2", 3600⟩ "A2" (by decide) (by decide)

/-- C10: refresh-token retention is decided by JavaScript falsiness:
jsTruthy is false exactly on the absent or null field and on the
empty string, the kept refreshToken is the prior one whenever the
response value is falsy and is the response value itself exactly when
that is a truthy string, and every successful refresh persists a
record with that kept refreshToken in both variants. -/
theorem c10_falsy_refresh_token_retention
    (cid csec : String) (now : Int) (t : TokenRecord)
    (rest : List TokenRecord) (s : Nat) (b : RefreshBody) (a : String)
    (hexp : t.expiresAt < now)
    (hok : (getValidAccessTokenA cid csec now (t :: rest)
        (.response s b)).result = .ok a) :
    (jsTruthy b.refresh_token = false
      ↔ (b.refresh_token = none ∨ b.refresh_token = some "")) ∧
    (jsTruthy b.refresh_token = false → keptRefreshToken t b = t.refreshToken) ∧
    (jsTruthy b.refresh_token = true
      → some (keptRefreshToken t b) = b.refresh_token) ∧
    (getValidAccessTokenA cid csec now (t :: rest) (.response s b)).store
      = ⟨a, keptRefreshToken t b, now + b.expires_in * 1000⟩ :: rest ∧
    (getValidAccessTokenB cid csec now (t :: rest) (.response s b)).store
      = ⟨a, keptRefreshToken t b, now + b.expires_in * 1000⟩ :: rest := by
  have h1 : ¬ now < t.expiresAt := by omega
  have h2 : now > t.expiresAt := hexp
  obtain ⟨s2, b2, heq, hs, hacc, hane, hkne, hstore⟩ :=
    tokenA_ok_shape cid csec now t rest (.response s b) a h1 hok
  injection heq with hseq hbeq
  subst hseq
  subst hbeq
  have hval : validateDoc (refreshedPending now t b)
      = some ⟨a, keptRefreshToken t b, now + b.expires_in * 1000⟩ := by
    simp [validateDoc, refreshedPending, hacc, hane, hkne]
  refine ⟨?_, ?_, ?_, hstore, ?_⟩
  · rcases b.refresh_token with _ | str <;> simp [jsTruthy]
  · intro hf
    simp [keptRefreshToken, hf]
  · intro ht
    rcases hb : b.refresh_token with _ | str
    · rw [hb] at ht
      simp [jsTruthy] at ht
    · rw [hb] at ht
      simp [keptRefreshToken, hb, ht]
  · rw [tokenB_refresh_2xx cid csec now t rest s b h2 hs, hval]

theorem c10_falsy_refresh_token_retention_witness :
    (jsTruthy (some "") = false
      ↔ ((some "" : Option String) = none ∨ (some "" : Option String) = some "")) ∧
    (jsTruthy (some "") = false
      → keptRefreshToken ⟨"A1", "R1", 500⟩ ⟨some "A9", some "", 7200⟩ = "R1") ∧
    (jsTruthy (some "") = true
      → some (keptRefreshToken ⟨"A1", "R1", 500⟩ ⟨some "A9", some "", 7200⟩)
          = some "") ∧
    (getValidAccessTokenA "cid" "sec" 2000 [⟨"A1", "R1", 500⟩]
        (.response 201 ⟨some "A9", some "", 7200⟩)).store
      = [⟨"A9", keptRefreshToken ⟨"A1", "R1", 500⟩ ⟨some "A9", some "", 7200⟩,
          2000 + 7200 * 1000⟩] ∧
    (getValidAccessTokenB "cid" "sec" 2000 [⟨"A1", "R1", 500⟩]
        (.response 201 ⟨some "A9", some "", 7200⟩)).store
      = [⟨"A9", keptRefreshToken ⟨"A1", "R1", 500⟩ ⟨some "A9", some "", 7200⟩,
          2000 + 7200 * 1000⟩] :=
  c10_falsy_refresh_token_retention "cid" "sec" 2000 ⟨"A1", "R1", 500⟩ [] 201
    ⟨some "A9", some "", 7200⟩ "A9" (by decide) (by decide)

end AiScheduler
